import Mathlib

/-
Verification development for the era2 conversational shopping assistant.

The Python sources are shallowly embedded below:
  * `main.py`            — the session preference store (`update_session_preferences`,
                           `get_or_create_session`), the `JewelleryRecommender`
                           (Tier-2 attribute scoring and the Tier-3 broad branch),
                           and the `/chat` turn handler `chat_endpoint`;
  * `conversation_engine.py` — the engine preference map and
                           `get_recommendation_confidence`;
  * `vector_db.py` / `rag_system.py` — the Tier-1 hybrid/semantic retrieval chain
                           (`hybrid_search`, `semantic_search`,
                           `retrieve_relevant_products`).

Machine floats are modelled as rationals.  The external embedding service is an
oracle: the stored collection appears as a list already ordered by the oracle
with an exogenous distance per entry, and the query honours the structured
where-clause per the collaborator contract.  Of the dual-backend session store,
the in-memory (`SESSIONS_STORE`) code path is the one embedded; the Redis path
is line-for-line the same merge and state logic.  Python `str.strip`,
`str.lower` and substring tests are modelled character-wise over `List Char`
(ASCII-faithful, which covers every string these code paths compare).
-/

namespace Era2

/-- Python str.lower, character by character. -/
def lowerStr (s : String) : String := ⟨s.data.map Char.toLower⟩

/-- Python str.strip: drop leading and trailing whitespace. -/
def stripStr (s : String) : String :=
  ⟨((s.data.dropWhile Char.isWhitespace).reverse.dropWhile Char.isWhitespace).reverse⟩

/-- Helper for the Python substring test `needle in hay`. -/
def subListIn (needle : List Char) : List Char → Bool
  | [] => needle.isEmpty
  | c :: t => needle.isPrefixOf (c :: t) || subListIn needle t

/-- The Python substring test `needle in hay` on strings. -/
def strContains (hay needle : String) : Bool := subListIn needle.data hay.data

/-- The Python test `s.startswith(pre)`. -/
def strStartsWith (s pre : String) : Bool := pre.data.isPrefixOf s.data

/-- The Python comparison `a.lower() == b.lower()`. -/
def eqCI (a b : String) : Bool := decide (lowerStr a = lowerStr b)

/-- The Python membership test `g.lower() in [x.lower() for x in lst]`. -/
def memCI (lst : List String) (g : String) : Bool :=
  lst.any (fun x => decide (lowerStr x = lowerStr g))

/-- The eight fixed preference slots, i.e. the field names of
`ExtractedPreferences` in `main.py` (`ALL_PREFERENCE_KEYS`). -/
inductive Slot where
  | occasion
  | recipient
  | category
  | metal
  | design_type
  | style
  | budget_max
  | gemstone
deriving DecidableEq, Repr

/-- The iteration order of the eight slot keys (the declaration order of the
`ExtractedPreferences` fields, which is the dict order used by every loop
`for key in ALL_PREFERENCE_KEYS`). -/
def Slot.all : List Slot :=
  [.occasion, .recipient, .category, .metal, .design_type, .style, .budget_max, .gemstone]

/-- A scalar preference value as it occurs in the Python dicts: a string or a
number.  Numbers (prices, budgets) are modelled as rationals. -/
inductive PrefVal where
  | s (v : String)
  | n (v : ℚ)
deriving DecidableEq, Repr

/-- Python truthiness of a scalar value: the empty string and the number 0 are
falsy, everything else is truthy. -/
def PrefVal.truthy : PrefVal → Bool
  | .s v => !(decide (v = ""))
  | .n q => !(decide (q = 0))

/-- Python truthiness of `preferences.get(key)`: a missing key or a stored
`None` is falsy. -/
def optTruthy : Option PrefVal → Bool
  | none => false
  | some v => v.truthy

/-- The test `str(value).strip() == ""` used by `update_session_preferences`.
It holds exactly when every character is whitespace; for a number, `str` never
yields a blank string. -/
def PrefVal.strBlank : PrefVal → Bool
  | .s v => v.data.all Char.isWhitespace
  | .n _ => false

/-- The test `str(value).lower() == "null"` used by `update_session_preferences`.
For a number, `str` never yields the string "null". -/
def PrefVal.strNullLit : PrefVal → Bool
  | .s v => decide (lowerStr v = "null")
  | .n _ => false

/-- A session preference dict as stored by `main.py`.  `slots s = none` models
the slot key being absent from the dict, `slots s = some none` the key mapped to
`None`, and `slots s = some (some v)` the key mapped to the value `v`.
`showAllFlag` records whether the extra key `"user_query_was_generic_show_all"`
is present in the dict with value `True`; it is kept as a separate field because
`update_session_preferences` iterates only over `ALL_PREFERENCE_KEYS` and hence
never reads or writes that key, while `recommend_products` reads it with
`preferences.get(..., False)`. -/
structure SessionPrefs where
  slots : Slot → Option (Option PrefVal)
  showAllFlag : Bool

/-- An incoming preference dict (`new_prefs_dict`), with the same encoding. -/
structure PrefsDelta where
  slots : Slot → Option (Option PrefVal)
  showAllFlag : Bool

/-- The fresh slot map `{key: None for key in ALL_PREFERENCE_KEYS}` used by
`get_or_create_session` when a session is created. -/
def freshSlots : Slot → Option (Option PrefVal) := fun _ => some none

/-- A freshly created session preference dict: all eight keys mapped to `None`
and no broad-search flag key. -/
def freshSessionPrefs : SessionPrefs := ⟨freshSlots, false⟩

/-- Reads `preferences.get(key)`: a missing key and a key stored as `None` both
give `None`. -/
def SessionPrefs.get (p : SessionPrefs) (s : Slot) : Option PrefVal := (p.slots s).join

/-- One slot of the merge loop of `update_session_preferences` (`main.py`,
lines 347-353 / 363-369):
the key being in the delta with a non-`None` value that neither strips to ""
nor lowers to "null" overwrites; the key being in the delta with `None` or with
a value lowering to "null" clears the slot to null; otherwise a key missing
from the current dict is inserted as null and a present key is left untouched. -/
def mergeSlot (cur delta : Option (Option PrefVal)) : Option (Option PrefVal) :=
  match delta with
  | some (some v) =>
      if !v.strBlank && !v.strNullLit then some (some v)
      else if v.strNullLit then some none
      else
        match cur with
        | none => some none
        | some c => some c
  | some none => some none
  | none =>
      match cur with
      | none => some none
      | some c => some c

/-- The function `update_session_preferences` of `main.py`: merges the eight
slots with `mergeSlot` and leaves every other key of the session dict — in
particular the broad-search flag key — untouched, since the loop runs only over
`ALL_PREFERENCE_KEYS`. -/
def updateSessionPreferences (cur : SessionPrefs) (d : PrefsDelta) : SessionPrefs :=
  ⟨fun s => mergeSlot (cur.slots s) (d.slots s), cur.showAllFlag⟩

/-- The slot map created by `EnhancedConversationEngine.get_or_create_context`
for a new session: `{key: None for key in self.preference_keys}`. -/
def engineFreshPreferences : Slot → Option (Option PrefVal) := fun _ => some none

/-- A catalog product (`ProductDetail` / the dicts of
`product_catalog_large.json`).  `similarity_score` is the transient score the
vector search attaches; catalog entries carry `none`. -/
structure Product where
  id : String
  name : String
  category : String
  price : ℚ
  metal : String
  gemstones : List String
  design_type : String
  style_tags : List String
  occasion_tags : List String
  recipient_tags : List String
  similarity_score : Option ℚ
deriving DecidableEq, Repr

/-- Reads a string-valued slot the way the recommender does: `pref =
preferences.get(key)` followed by the truthiness test `if pref:`.  A truthy
numeric value in a string slot would make the subsequent `.lower()` call raise
in Python; such values do not occur (the LLM schema types these slots as
string-or-null) and are treated as absent. -/
def SessionPrefs.getTruthyStr (p : SessionPrefs) (s : Slot) : Option String :=
  match p.get s with
  | some (.s v) => if v = "" then none else some v
  | _ => none

/-- The count `len([v for k, v in preferences.items() if v and k != "category"
and k != "user_query_was_generic_show_all"])` from `_calculate_match_score`:
how many slots other than category hold a truthy value (the flag key is
excluded by the comprehension itself; the session dict holds no further keys). -/
def othersTruthyCount (p : SessionPrefs) : Nat :=
  (Slot.all.filter (fun s => !(decide (s = .category)) && optTruthy (p.get s))).length

/-- The scoring steps of `_calculate_match_score` after the category blocks
(`main.py`, lines 185-226), given the score and matched-flag accumulated so
far.  Budget handling: a non-`None` budget enters the block; `float()` on the
non-numeric values occurring in this system raises and the `except` clause
leaves the score unchanged, so only numeric budgets score. -/
def restScore (product : Product) (p : SessionPrefs) (sc0 : ℚ) (m0 : Bool) : ℚ :=
  let st1 : ℚ × Bool :=
    match p.getTruthyStr .metal with
    | some m =>
        if strContains (lowerStr product.metal) (lowerStr m) then (sc0 + 20, true) else (sc0, m0)
    | none => (sc0, m0)
  let st2 : ℚ × Bool :=
    match p.getTruthyStr .gemstone with
    | some g =>
        if !(decide (lowerStr g = "none")) then
          if memCI product.gemstones g then (st1.1 + 30, true) else st1
        else
          if memCI product.gemstones "none" then (st1.1 + 10, true) else st1
    | none => st1
  let st3 : ℚ × Bool :=
    match p.getTruthyStr .style with
    | some st => if memCI product.style_tags st then (st2.1 + 15, true) else st2
    | none => st2
  let st4 : ℚ × Bool :=
    match p.getTruthyStr .design_type with
    | some d => if eqCI product.design_type d then (st3.1 + 10, true) else st3
    | none => st3
  let st5 : ℚ × Bool :=
    match p.getTruthyStr .occasion with
    | some o => if memCI product.occasion_tags o then (st4.1 + 10, true) else st4
    | none => st4
  let st6 : ℚ × Bool :=
    match p.getTruthyStr .recipient with
    | some r => if memCI product.recipient_tags r then (st5.1 + 5, true) else st5
    | none => st5
  let st7 : ℚ × Bool :=
    match p.get .budget_max with
    | some (.n b) =>
        if product.price ≤ b then
          (if product.price ≥ b * (7/10) then st6.1 + 20 + 5 else st6.1 + 20, true)
        else st6
    | _ => st6
  -- `if not preferences or (...)`: the session dict always carries the eight
  -- slot keys, so `not preferences` is false here.
  if !st7.2 && !((p.getTruthyStr .category).isSome && decide (othersTruthyCount p = 0)) then 0
  else st7.1

/-- The function `JewelleryRecommender._calculate_match_score` (`main.py`,
lines 171-226): category gate (mismatch scores 0), the generic
only-category-set rule returning 50, then the additive attribute points. -/
def calculateMatchScore (product : Product) (p : SessionPrefs) : ℚ :=
  match p.getTruthyStr .category with
  | some c =>
      if eqCI product.category c then
        if othersTruthyCount p = 0 then 50
        else restScore product p 100 true
      else 0
  | none => restScore product p 0 false

/-- The budget `continue` of the `recommend_products` scoring loop: a numeric
budget skips products priced above it; `float()` raising on a non-numeric value
is swallowed by the `except` clause. -/
def budgetSkip (p : SessionPrefs) (product : Product) : Bool :=
  match p.get .budget_max with
  | some (.n b) => decide (product.price > b)
  | _ => false

/-- The category `continue` of the `recommend_products` scoring loop. -/
def catSkip (p : SessionPrefs) (product : Product) : Bool :=
  match p.getTruthyStr .category with
  | some c => !eqCI product.category c
  | none => false

/-- One iteration of the scoring loop of `recommend_products`: skip on budget,
skip on category, keep the product with its score when the score is positive. -/
def tier2Keep (p : SessionPrefs) (product : Product) : Option (Product × ℚ) :=
  if budgetSkip p product then none
  else if catSkip p product then none
  else if calculateMatchScore product p > 0 then
    some (product, calculateMatchScore product p)
  else none

/-- Stable insertion used to model Python `list.sort`: `le a b` means `a` may
stay in front of `b`; ties keep their original order, as Python sorts are
stable. -/
def insertOrd (le : α → α → Bool) (a : α) : List α → List α
  | [] => [a]
  | b :: t => if le a b then a :: b :: t else b :: insertOrd le a t

/-- Stable sort (the unique stable order for a total comparator, hence the same
output as Python Timsort). -/
def stableSort (le : α → α → Bool) (l : List α) : List α := l.foldr (insertOrd le) []

/-- The comparator of `scored_products.sort(key=lambda x: (x["score"],
-x["product"]["price"]), reverse=True)`: descending score, then ascending
price. -/
def scoreOrd (x y : Product × ℚ) : Bool :=
  decide (y.2 < x.2) || (decide (x.2 = y.2) && decide (x.1.price ≤ y.1.price))

/-- The comparator of the Tier-3 ascending price sort `results.sort(key=lambda
p: p.get("price", 0))`. -/
def priceOrd (x y : Product) : Bool := decide (x.price ≤ y.price)

/-- The guard of the Tier-3 broad branch of `recommend_products`:
`preferences.get("user_query_was_generic_show_all", False)` together with a
truthy category. -/
def tier3Taken (p : SessionPrefs) : Bool :=
  p.showAllFlag && (p.getTruthyStr .category).isSome

/-- The function `JewelleryRecommender.recommend_products` (`main.py`, lines
228-258): empty-catalog guard, the Tier-3 broad branch (all products of the
category, ascending price), otherwise the Tier-2 scoring path. -/
def recommendProducts (catalog : List Product) (p : SessionPrefs) (top_n : Nat) :
    List Product :=
  if catalog.isEmpty then []
  else if tier3Taken p then
    match p.getTruthyStr .category with
    | some c =>
        (stableSort priceOrd (catalog.filter (fun prod => eqCI prod.category c))).take top_n
    | none => []  -- unreachable: tier3Taken requires the category to be present
  else
    ((stableSort scoreOrd (catalog.filterMap (tier2Keep p))).take top_n).map Prod.fst

/-- The structured filter `hybrid_search` builds from the preferences
(`vector_db.py`, lines 336-347): category and metal when truthy, `max_price`
when the budget is truthy.  Budgets are numeric in this system (the LLM schema
and pydantic coerce them to float-or-null); a non-numeric budget value is
treated as absent. -/
structure VFilters where
  category : Option String
  metal : Option String
  max_price : Option ℚ

/-- The ChromaDB where-clause `semantic_search` builds from the filters
(`vector_db.py`, lines 233-248): each filter key is used only when present and
truthy.  `min_price` is omitted because `hybrid_search` never supplies it. -/
structure WhereClause where
  category : Option String
  metal : Option String
  priceLe : Option ℚ

/-- One entry of the vector index: a stored product together with the exogenous
embedding distance the oracle assigns to it for the current query. -/
structure IndexEntry where
  product : Product
  distance : ℚ
deriving DecidableEq, Repr

/-- Builds the where-clause from the filters, dropping falsy values
(`if filters["category"]:` etc.). -/
def buildWhere (f : VFilters) : WhereClause :=
  ⟨ match f.category with
    | some c => if c = "" then none else some c
    | none => none
  , match f.metal with
    | some m => if m = "" then none else some m
    | none => none
  , match f.max_price with
    | some b => if b = 0 then none else some b
    | none => none ⟩

/-- Whether a stored product satisfies the where-clause (ChromaDB equality is
exact, the price bound is `$lte`). -/
def matchesWhere (w : WhereClause) (product : Product) : Bool :=
  (match w.category with
   | some c => decide (product.category = c)
   | none => true)
  && (match w.metal with
      | some m => decide (product.metal = m)
      | none => true)
  && (match w.priceLe with
      | some b => decide (product.price ≤ b)
      | none => true)

/-- The function `VectorDatabase.semantic_search`, with the external query
modelled per the §6 collaborator contract: `index` is the stored collection in
the order chosen by the embedding oracle (nearest first); the query returns the
first `top_k` entries satisfying the where-clause, with `similarity_score =
1 - distance` attached. -/
def semanticSearch (index : List IndexEntry) (f : VFilters) (top_k : Nat) :
    List Product :=
  ((index.filter (fun e => matchesWhere (buildWhere f) e.product)).take top_k).map
    (fun e => { e.product with similarity_score := some (1 - e.distance) })

/-- The preference-to-filter mapping of `VectorDatabase.hybrid_search`: the
query-string enrichment only influences the oracle ordering, which is already
arbitrary here. -/
def filtersFromPrefs (p : SessionPrefs) : VFilters :=
  ⟨ p.getTruthyStr .category
  , p.getTruthyStr .metal
  , match p.get .budget_max with
    | some (.n b) => if b = 0 then none else some b
    | _ => none ⟩

/-- The function `VectorDatabase.hybrid_search`. -/
def hybridSearch (index : List IndexEntry) (p : SessionPrefs) (top_k : Nat) :
    List Product :=
  semanticSearch index (filtersFromPrefs p) top_k

/-- The function `RAGSystem.retrieve_relevant_products` (`rag_system.py`, lines
41-70): hybrid search followed by the `min_similarity_threshold = 0.5` cut. -/
def retrieveRelevantProducts (index : List IndexEntry) (p : SessionPrefs)
    (top_k : Nat) : List Product :=
  (hybridSearch index p top_k).filter
    (fun product => decide (product.similarity_score.getD 0 ≥ 1/2))

/-- Confidence levels. -/
inductive Confidence where
  | low
  | medium
  | high
deriving DecidableEq, Repr

/-- The order low < medium < high on confidence tiers. -/
def confRank : Confidence → Nat
  | .low => 0
  | .medium => 1
  | .high => 2

/-- The count of non-null values of the engine preference map (`sum(1 for v in
context.preferences.values() if v is not None)`); the map always carries
exactly the eight slot keys. -/
def filledCount (prefs : Slot → Option PrefVal) : Nat :=
  (Slot.all.filter (fun s => (prefs s).isSome)).length

/-- The quantity `preference_ratio = filled_preferences /
len(self.preference_keys)` with eight preference keys. -/
def prefFillFraction (prefs : Slot → Option PrefVal) : ℚ :=
  (filledCount prefs : ℚ) / 8

/-- The quantity `avg_similarity = sum(p.get("similarity_score", 0) for p in
products) / len(products)`. -/
def avgSimilarity (products : List Product) : ℚ :=
  (products.map (fun product => product.similarity_score.getD 0)).sum /
    (products.length : ℚ)

/-- The function `EnhancedConversationEngine.get_recommendation_confidence`
(`conversation_engine.py`, lines 325-350). -/
def getRecommendationConfidence (prefs : Slot → Option PrefVal)
    (products : List Product) : Confidence :=
  if products.isEmpty then .low
  else if prefFillFraction prefs ≥ 1/2 ∧ avgSimilarity products ≥ 7/10
      ∧ (prefs .category).isSome then .high
  else if prefFillFraction prefs ≥ 3/10 ∧ avgSimilarity products ≥ 1/2 then .medium
  else .low

/-- The high-confidence condition of the classifier, named for the C7/C8
statements. -/
def highCond (prefs : Slot → Option PrefVal) (products : List Product) : Prop :=
  prefFillFraction prefs ≥ 1/2 ∧ avgSimilarity products ≥ 7/10
    ∧ (prefs .category).isSome

/-- The medium-confidence condition of the classifier. -/
def medCond (prefs : Slot → Option PrefVal) (products : List Product) : Prop :=
  prefFillFraction prefs ≥ 3/10 ∧ avgSimilarity products ≥ 1/2

/-- A parsed-and-validated LLM collaborator response (`LLMStructuredOutput`
minus the dialogue handling): `prefs` is `extracted_preferences.model_dump
(exclude_none=True)`, so it contains only the slots extracted as non-`None`. -/
structure LLMOutput where
  dialogue : String
  prefs : Slot → Option PrefVal
  state : String
  action : String
  missingParam : Option String

/-- Outcome of one call to the LLM collaborator: a validated structured output,
or any of the JSON/validation/API failures with the error reply
`get_llm_structured_response` chooses for it. -/
inductive LLMResult where
  | ok (o : LLMOutput)
  | fail (errReply : String)

/-- The preference update performed inside `get_llm_structured_response` on
success: `update_session_preferences(session_id, extracted_prefs_this_turn)`
with the `exclude_none=True` delta. -/
def llmApply (p : SessionPrefs) (o : LLMOutput) : SessionPrefs :=
  updateSessionPreferences p ⟨fun s => (o.prefs s).map some, false⟩

/-- A session as the turn handler sees it after `get_or_create_session`. -/
structure Session where
  state : String
  prefs : SessionPrefs

/-- A freshly created session. -/
def freshSession : Session := ⟨"initial_greeting", freshSessionPrefs⟩

/-- The observable outcome of one `/chat` turn.  `sessionState` is the state
left in the session store, which is also the `current_state` of the response
(the store always carries the key at that point).  `ranRecommendation` records
whether the `recommend_products` dispatch branch executed, i.e. whether the
recommendation engine was invoked this turn. -/
structure TurnResult where
  reply : String
  sessionState : String
  action : String
  endConversation : Bool
  prefsAfter : SessionPrefs
  products : Option (List Product)
  ranRecommendation : Bool

/-- The fixed trigger phrases of the broad-category heuristic
(`broad_search_triggers` in `chat_endpoint`). -/
def broadTriggers : List String :=
  ["all rings", "all necklaces", "show me rings", "just rings",
   "all earrings", "show me earrings", "just earrings",
   "all bracelets", "show me bracelets", "just bracelets"]

/-- The category the broad-search heuristic derives from the message (the
if-chain on "ring"/"necklace"/"earring"/"bracelet", in that order). -/
def broadCategoryOf (lmsg : String) : Option String :=
  if strContains lmsg "ring" then some "ring"
  else if strContains lmsg "necklace" then some "necklace"
  else if strContains lmsg "earring" then some "earrings"
  else if strContains lmsg "bracelet" then some "bracelet"
  else none

/-- The reply of the item-details branch.  Only the leading sentence is
modelled; the remaining lines are presentation text (formatted price, metal,
tags) that no property here depends on. -/
def itemDetailsReply (product : Product) : String :=
  "Here are the details for " ++ product.name ++ ":"

/-- The heuristic chain of `chat_endpoint` (`main.py`, lines 531-625), given
the lowercased stripped message: returns (reply, state for the turn, action,
end flag, updated preferences).  The branches, in source order: broad category
search, the two staff control tokens, the adjust-preferences token, item
details, the greeting token, and otherwise the LLM collaborator. -/
def chatChain (lmsg : String) (sess : Session) (llm : LLMResult)
    (catalog : List Product) : String × String × String × Bool × SessionPrefs :=
  match (if broadTriggers.any (fun t => strContains lmsg t)
         then broadCategoryOf lmsg else none) with
  | some c =>
      -- clear all slots, set the category, and set the flag key in the delta
      -- (the merge drops the flag key — it is not one of the eight slots)
      ( "Certainly! Let me show you our collection of " ++ c ++ "s."
      , "POST_RECOMMENDATION_FEEDBACK", "recommend_products", false
      , updateSessionPreferences sess.prefs
          ⟨fun s => if s = .category then some (some (.s c)) else some none, true⟩ )
  | none =>
    if lmsg = "talk_to_staff" ∨ lmsg = "request_staff_assistance_dialogue" then
      ( "Okay, I\x27ll get a staff member to assist you right away!"
      , "staff_handoff_requested", "offer_staff_handoff", true, sess.prefs )
    else if lmsg = "adjust_preferences_dialogue" then
      let cleared := updateSessionPreferences sess.prefs ⟨fun _ => some none, false⟩
      match llm with
      | .ok o => (o.dialogue, o.state, o.action, false, llmApply cleared o)
      | .fail e => (e, "error_state", "offer_staff_handoff", false, cleared)
    else if strStartsWith lmsg "item_details:" then
      let pid := stripStr ⟨lmsg.data.drop 13⟩
      match catalog.find? (fun product => decide (product.id = pid)) with
      | some product =>
          (itemDetailsReply product, "refining_recommendation", "ask_question",
           false, sess.prefs)
      | none =>
          ( "I couldn\x27t find details for that specific item. Would you like to see similar products or adjust your search?"
          , "gathering_preferences", "ask_question", false, sess.prefs )
    else if lmsg = "hi_ai_assistant" ∧ sess.state = "initial_greeting" then
      ( "Welcome to EstroTech Jewellery! I\x27m your personal AI assistant. How can I help you find something beautiful today?"
      , "identifying_purpose", "ask_question", false, sess.prefs )
    else
      match llm with
      | .ok o => (o.dialogue, o.state, o.action, false, llmApply sess.prefs o)
      | .fail e =>
          -- the default error payload carries state "error_state", action
          -- "offer_staff_handoff" and an "error" key; the handler then rewrites
          -- the state to "staff_handoff_requested" for that action
          (e, "staff_handoff_requested", "offer_staff_handoff", false, sess.prefs)

/-- The `/chat` turn handler `chat_endpoint` given the lowercased stripped
message: heuristic chain, session-state write, then the dispatch on the
resolved action.  `ragResults` is the outcome of the RAG collaborator when the
enhanced path is available ([] when it is unavailable, fails, or finds
nothing); the legacy recommender runs exactly when that list is empty (an empty
catalog means no recommender instance, and `recommendProducts` is [] then
too). -/
def chatTurnAux (lmsg : String) (sess : Session) (llm : LLMResult)
    (catalog : List Product) (ragResults : List Product) : TurnResult :=
  let chain := chatChain lmsg sess llm catalog
  let reply := chain.1
  let chainState := chain.2.1
  let act := chain.2.2.1
  let endF := chain.2.2.2.1
  let prefs1 := chain.2.2.2.2
  if act = "recommend_products" then
    let filtered :=
      if ragResults.isEmpty then recommendProducts catalog prefs1 5 else ragResults
    ⟨ if filtered.isEmpty then
        "I\x27m having trouble accessing our product catalog right now. Please try again in a moment."
      else reply
    , if filtered.isEmpty then "error_state"
      else if chainState = "refining_recommendation" then chainState
      else "POST_RECOMMENDATION_FEEDBACK"
    , act, endF, prefs1
    , if filtered.isEmpty then none else some filtered
    , true ⟩
  else if act = "offer_staff_handoff" then
    let reply2 :=
      if strStartsWith (lowerStr reply) "okay, i\x27ll get a staff member"
          || strStartsWith (lowerStr reply) "sure, i\x27m notifying" then reply
      else "Sure, I\x27m notifying a staff member to help you now."
    -- this branch sets the local state variable but performs no store write,
    -- so the stored (and returned) state stays the chain state
    ⟨reply2, chainState, act, true, prefs1, none, false⟩
  else
    ⟨reply, chainState, act, endF, prefs1, none, false⟩

/-- One `/chat` turn: `chat_endpoint` strips the message and lowercases it for
every heuristic comparison. -/
def chatTurn (sess : Session) (message : String) (llm : LLMResult)
    (catalog : List Product) (ragResults : List Product) : TurnResult :=
  chatTurnAux (lowerStr (stripStr message)) sess llm catalog ragResults

/-- Concrete current preference dict for the C1 counterexample: the category
slot holds "ring", every other slot is null. -/
def c1exCur : SessionPrefs :=
  ⟨fun s => if s = .category then some (some (.s "ring")) else some none, false⟩

/-- Concrete incoming delta for the C1 counterexample: it contains only the
category slot, explicitly set to the empty string. -/
def c1exDelta : PrefsDelta :=
  ⟨fun s => if s = .category then some (some (.s "")) else none, false⟩

/-- Fixture: a gold ring priced 500. -/
def ringA : Product :=
  ⟨"r1", "Aurora Ring", "ring", 500, "gold", ["diamond"], "solitaire",
   ["classic"], ["engagement"], ["partner"], none⟩

/-- Fixture: a silver ring priced 300. -/
def ringB : Product :=
  ⟨"r2", "Breeze Ring", "ring", 300, "silver", ["none"], "band",
   ["minimalist"], ["birthday"], ["friend"], none⟩

/-- Fixture: a necklace priced 200. -/
def neckC : Product :=
  ⟨"n1", "Cascade Necklace", "necklace", 200, "gold", ["pearl"], "pendant",
   ["elegant"], ["anniversary"], ["mother"], none⟩

/-- Fixture: a zero-priced giveaway charm (prices are not constrained to be
positive anywhere in the code or the catalog schema). -/
def zeroProd : Product :=
  ⟨"z1", "Promo Charm", "charm", 0, "steel", ["none"], "charm",
   [], [], [], none⟩

/-- Fixture catalog for the C2 evaluation. -/
def c2catalog : List Product := [ringA, ringB, neckC]

/-- Fixture catalog for the C3 evaluation: no rings at all. -/
def c3catalog : List Product := [neckC]

/-- Preference dict whose slots are all falsy but whose budget is the (falsy)
number 0 — used against C4 and C10. -/
def zeroBudgetPrefs : SessionPrefs :=
  ⟨fun s => match s with
    | .budget_max => some (some (.n 0))
    | _ => some none, false⟩

/-- Fixture: a cheap ring priced 10. -/
def thriftRing : Product :=
  ⟨"r9", "Thrift Ring", "ring", 10, "brass", ["none"], "band",
   [], [], [], none⟩

/-- Fixture vector index for C4: the cheap ring at distance 0 from the
query. -/
def c4index : List IndexEntry := [⟨thriftRing, 0⟩]

/-- LLM fixture: the collaborator proposes `recommend_products` and extracts
the category "ring". -/
def llmRecommendRing : LLMResult :=
  .ok ⟨"Let me find some rings for you."
      , fun s => if s = .category then some (.s "ring") else none
      , "ready_for_recommendation", "recommend_products", none⟩

/-- LLM fixture: the collaborator proposes `recommend_products` while
extracting nothing at all. -/
def llmRecommendEmpty : LLMResult :=
  .ok ⟨"Here are some options.", fun _ => none,
       "ready_for_recommendation", "recommend_products", none⟩

/-- LLM fixture: the collaborator keeps gathering preferences. -/
def llmAsk : LLMResult :=
  .ok ⟨"Could you tell me more about the occasion?"
      , fun _ => none
      , "gathering_preferences", "ask_question", none⟩

/-- Engine preference map fixture for C7: occasion, recipient, category and
metal are filled (four of eight slots). -/
def c7prefs : Slot → Option PrefVal := fun s =>
  match s with
  | .occasion => some (.s "wedding")
  | .recipient => some (.s "partner")
  | .category => some (.s "ring")
  | .metal => some (.s "gold")
  | _ => none

/-- Result-list fixture for C7: one product with similarity 0.8. -/
def c7products : List Product :=
  [{ ringA with similarity_score := some (8/10) }]

/-- Result-list fixtures for C8: same length, average similarities 0.4 and
0.8. -/
def c8low : List Product :=
  [{ ringA with similarity_score := some (4/10) }]

/-- Companion C8 fixture with the higher similarity. -/
def c8high : List Product :=
  [{ ringA with similarity_score := some (8/10) }]

/-- Preference dict with only a numeric budget of 400 set. -/
def prefs400 : SessionPrefs :=
  ⟨fun s => match s with
    | .budget_max => some (some (.n 400))
    | _ => some none, false⟩

/-- Fixture vector index for the C4 witness: the 300-priced ring at distance
0. -/
def c4windex : List IndexEntry := [⟨ringB, 0⟩]

/-- Helper: the merge of a single slot never leaves the key absent. -/
theorem mergeSlot_ne_none (cur delta : Option (Option PrefVal)) :
    mergeSlot cur delta ≠ none := by
  unfold mergeSlot
  split
  · split
    · exact Option.some_ne_none _
    · split
      · exact Option.some_ne_none _
      · split <;> exact Option.some_ne_none _
  · exact Option.some_ne_none _
  · split <;> exact Option.some_ne_none _

/-- Helper: membership is preserved by stable insertion. -/
theorem mem_insertOrd (le : α → α → Bool) (a b : α) (l : List α) :
    a ∈ insertOrd le b l ↔ a = b ∨ a ∈ l := by
  induction l with
  | nil => simp [insertOrd]
  | cons c t ih =>
      unfold insertOrd
      split
      · simp
      · simp only [List.mem_cons, ih]
        tauto

/-- Helper: the stable sort is a permutation as far as membership goes. -/
theorem mem_stableSort (le : α → α → Bool) (a : α) (l : List α) :
    a ∈ stableSort le l ↔ a ∈ l := by
  induction l with
  | nil => simp [stableSort]
  | cons c t ih =>
      show a ∈ insertOrd le c (stableSort le t) ↔ _
      rw [mem_insertOrd]
      simp [ih]

/-- C9: after session creation (`get_or_create_session`,
`get_or_create_context`) and after every run of `update_session_preferences`,
the preference dict contains all eight slot keys — no slot key is ever absent
from the map. -/
theorem c9_slot_presence :
    (∀ s : Slot, freshSessionPrefs.slots s ≠ none)
    ∧ (∀ (cur : SessionPrefs) (d : PrefsDelta) (s : Slot),
        (updateSessionPreferences cur d).slots s ≠ none)
    ∧ (∀ s : Slot, engineFreshPreferences s ≠ none) := by
  refine ⟨fun s => ?_, fun cur d s => ?_, fun s => ?_⟩
  · simp [freshSessionPrefs, freshSlots]
  · exact mergeSlot_ne_none _ _
  · simp [engineFreshPreferences]

/-- C1 counterexample: the claim says a slot present in the delta with the
empty string is cleared to null, but `update_session_preferences` leaves such a
slot unchanged — the stored category "ring" survives an incoming empty-string
category value. -/
theorem c1_empty_string_counterexample :
    c1exDelta.slots Slot.category = some (some (.s ""))
    ∧ (updateSessionPreferences c1exCur c1exDelta).slots Slot.category
        = some (some (.s "ring")) := by
  constructor <;> rfl

/-- C1 (amended): the merge is three-way per slot — overwrite when the incoming
value is non-null, non-blank and not the string "null"; clear when the incoming
value is null or lowers to "null"; keep the current value when the slot is
omitted — except that an incoming empty or whitespace-only string leaves the
slot unchanged rather than clearing it. -/
theorem c1_merge_three_way :
    ∀ (cur : SessionPrefs) (d : PrefsDelta) (s : Slot) (c : Option PrefVal),
      cur.slots s = some c →
      ((d.slots s = none → (updateSessionPreferences cur d).slots s = some c)
      ∧ (d.slots s = some none →
          (updateSessionPreferences cur d).slots s = some none)
      ∧ (∀ v, d.slots s = some (some v) → v.strNullLit = true →
          (updateSessionPreferences cur d).slots s = some none)
      ∧ (∀ v, d.slots s = some (some v) → v.strBlank = false → v.strNullLit = false →
          (updateSessionPreferences cur d).slots s = some (some v))
      ∧ (∀ v, d.slots s = some (some v) → v.strBlank = true → v.strNullLit = false →
          (updateSessionPreferences cur d).slots s = some c)) := by
  intro cur d s c hc
  refine ⟨fun h => ?_, fun h => ?_, fun v h hnull => ?_, fun v h hb hnull => ?_,
    fun v h hb hnull => ?_⟩
  · simp [updateSessionPreferences, mergeSlot, h, hc]
  · simp [updateSessionPreferences, mergeSlot, h]
  · simp [updateSessionPreferences, mergeSlot, h, hnull]
  · simp [updateSessionPreferences, mergeSlot, h, hb, hnull]
  · simp [updateSessionPreferences, mergeSlot, h, hb, hnull, hc]

/-- C1 witness: the amended theorem applied at a concrete map and delta — the
empty-string category delta leaves the stored "ring" in place. -/
theorem c1_merge_three_way_witness :
    (updateSessionPreferences c1exCur c1exDelta).slots Slot.category
      = some (some (.s "ring")) := by
  exact (c1_merge_three_way c1exCur c1exDelta .category (some (.s "ring"))
    rfl).2.2.2.2 (.s "") rfl rfl rfl

/-- Helper: complete case characterization of
`get_recommendation_confidence` on a non-empty result list. -/
theorem confidence_cases (prefs : Slot → Option PrefVal) (products : List Product)
    (h : products ≠ []) :
    (getRecommendationConfidence prefs products = .high ↔ highCond prefs products)
    ∧ (getRecommendationConfidence prefs products = .medium ↔
        (¬ highCond prefs products ∧ medCond prefs products))
    ∧ (getRecommendationConfidence prefs products = .low ↔
        (¬ highCond prefs products ∧ ¬ medCond prefs products)) := by
  have hne : products.isEmpty = false := by simpa [List.isEmpty_iff] using h
  unfold getRecommendationConfidence highCond medCond
  rw [hne]
  simp only [Bool.false_eq_true, if_false]
  split_ifs with h1 h2
  · exact ⟨iff_of_true rfl h1, iff_of_false (nofun) (fun hh => hh.1 h1),
      iff_of_false (nofun) (fun hh => hh.1 h1)⟩
  · exact ⟨iff_of_false (nofun) h1, iff_of_true rfl ⟨h1, h2⟩,
      iff_of_false (nofun) (fun hh => hh.2 h2)⟩
  · exact ⟨iff_of_false (nofun) h1, iff_of_false (nofun) (fun hh => h2 hh.2),
      iff_of_true rfl ⟨h1, h2⟩⟩

/-- C7: the confidence classifier returns low on an empty result list, and on a
non-empty list returns high exactly when the preference ratio is at least 0.5,
the average similarity at least 0.7 and the category slot is set; medium
exactly when that fails but the ratio is at least 0.3 and the average
similarity at least 0.5; and low otherwise. -/
theorem c7_confidence_formula :
    ∀ (prefs : Slot → Option PrefVal) (products : List Product),
      (products = [] → getRecommendationConfidence prefs products = .low)
      ∧ (products ≠ [] →
          ((getRecommendationConfidence prefs products = .high ↔
              highCond prefs products)
          ∧ (getRecommendationConfidence prefs products = .medium ↔
              (¬ highCond prefs products ∧ medCond prefs products))
          ∧ (getRecommendationConfidence prefs products = .low ↔
              (¬ highCond prefs products ∧ ¬ medCond prefs products)))) := by
  intro prefs products
  refine ⟨fun h => ?_, fun h => confidence_cases prefs products h⟩
  simp [getRecommendationConfidence, h]

/-- C7 witness: four of eight slots filled (category among them) and a single
result of similarity 0.8 classify as high. -/
theorem c7_confidence_formula_witness :
    getRecommendationConfidence c7prefs c7products = .high := by
  have h4 : filledCount c7prefs = 4 := by decide
  refine ((c7_confidence_formula c7prefs c7products).2 (by simp [c7products])).1.mpr
    ⟨?_, ?_, ?_⟩
  · show (filledCount c7prefs : ℚ) / 8 ≥ 1/2
    rw [h4]; norm_num
  · show avgSimilarity c7products ≥ 7/10
    norm_num [avgSimilarity, c7products]
  · simp [c7prefs]

/-- C8: at a fixed result count and fixed preference set, a higher average
similarity never classifies into a lower confidence tier. -/
theorem c8_confidence_monotone :
    ∀ (prefs : Slot → Option PrefVal) (r1 r2 : List Product),
      r1.length = r2.length → r1 ≠ [] →
      avgSimilarity r1 ≤ avgSimilarity r2 →
      confRank (getRecommendationConfidence prefs r1)
        ≤ confRank (getRecommendationConfidence prefs r2) := by
  intro prefs r1 r2 hlen h1 hmono
  have h2 : r2 ≠ [] := by
    intro h
    rw [h] at hlen
    exact h1 (List.length_eq_zero.mp hlen)
  rcases hc1 : getRecommendationConfidence prefs r1 with _ | _ | _
  · simp [confRank]
  · have hm := ((confidence_cases prefs r1 h1).2.1.mp hc1).2
    have hm2 : medCond prefs r2 := ⟨hm.1, le_trans hm.2 hmono⟩
    rcases hc2 : getRecommendationConfidence prefs r2 with _ | _ | _
    · exact absurd hm2 ((confidence_cases prefs r2 h2).2.2.mp hc2).2
    · simp [confRank]
    · simp [confRank]
  · have hh := (confidence_cases prefs r1 h1).1.mp hc1
    have hh2 : highCond prefs r2 := ⟨hh.1, le_trans hh.2.1 hmono, hh.2.2⟩
    rw [(confidence_cases prefs r2 h2).1.mpr hh2]

/-- C8 witness: raising the average similarity of a single-result list from 0.4
to 0.8 does not lower the tier. -/
theorem c8_confidence_monotone_witness :
    confRank (getRecommendationConfidence c7prefs c8low)
      ≤ confRank (getRecommendationConfidence c7prefs c8high) := by
  refine c8_confidence_monotone c7prefs c8low c8high rfl (by simp [c8low]) ?_
  norm_num [avgSimilarity, c8low, c8high]

/-- Helper: a falsy slot value reads as absent through the truthy-string
getter of the recommender. -/
theorem getTruthyStr_none_of_falsy (p : SessionPrefs) (s : Slot)
    (h : optTruthy (p.get s) = false) : p.getTruthyStr s = none := by
  cases hv : p.get s with
  | none => simp [SessionPrefs.getTruthyStr, hv]
  | some v =>
      cases v with
      | s str =>
          rw [hv] at h
          simp [optTruthy, PrefVal.truthy] at h
          simp [SessionPrefs.getTruthyStr, hv, h]
      | n q => simp [SessionPrefs.getTruthyStr, hv]

/-- Helper: with every truthy-string slot absent and a null budget, the
post-category scoring steps leave the zero score in place. -/
theorem restScore_zero (product : Product) (p : SessionPrefs)
    (hstr : ∀ s, p.getTruthyStr s = none) (hb : p.get .budget_max = none) :
    restScore product p 0 false = 0 := by
  simp [restScore, hstr Slot.metal, hstr Slot.gemstone, hstr Slot.style,
    hstr Slot.design_type, hstr Slot.occasion, hstr Slot.recipient,
    hstr Slot.category, hb]

/-- C10 counterexample: with all eight slots falsy (budget_max being the falsy
number 0), a zero-priced product scores 25 (budget bonus) and is returned, so
the Tier-2 result is not empty. -/
theorem c10_zero_budget_counterexample :
    (Slot.all.all (fun s => !optTruthy (zeroBudgetPrefs.get s))) = true
    ∧ zeroBudgetPrefs.showAllFlag = false
    ∧ recommendProducts [zeroProd] zeroBudgetPrefs 5 = [zeroProd] := by
  refine ⟨by decide, rfl, ?_⟩
  have hsc : calculateMatchScore zeroProd zeroBudgetPrefs = 25 := by
    norm_num [calculateMatchScore, restScore, SessionPrefs.getTruthyStr,
      SessionPrefs.get, Option.join, zeroBudgetPrefs, zeroProd]
  have hkeep : tier2Keep zeroBudgetPrefs zeroProd = some (zeroProd, 25) := by
    have hb : budgetSkip zeroBudgetPrefs zeroProd = false := by decide
    have hc : catSkip zeroBudgetPrefs zeroProd = false := by decide
    rw [tier2Keep, hb, hc, hsc]
    norm_num
  have hrec : recommendProducts [zeroProd] zeroBudgetPrefs 5
      = ((stableSort scoreOrd
            (List.filterMap (tier2Keep zeroBudgetPrefs) [zeroProd])).take 5).map
          Prod.fst := rfl
  rw [hrec, List.filterMap_cons, hkeep, List.filterMap_nil]
  rfl

/-- C10 (amended): with all eight slots falsy, the budget slot null, and the
broad-search flag unset, every product scores zero and the Tier-2 recommender
returns the empty list (a falsy-but-non-null budget of 0 is excluded: it awards
the budget bonus to zero-priced products). -/
theorem c10_all_null_tier2_empty :
    ∀ (catalog : List Product) (p : SessionPrefs) (top_n : Nat),
      (∀ s, optTruthy (p.get s) = false) → p.get .budget_max = none →
      p.showAllFlag = false →
      recommendProducts catalog p top_n = [] := by
  intro catalog p top_n hfalsy hb hflag
  have hstr : ∀ s, p.getTruthyStr s = none :=
    fun s => getTruthyStr_none_of_falsy p s (hfalsy s)
  have ht3 : tier3Taken p = false := by simp [tier3Taken, hflag]
  unfold recommendProducts
  rw [ht3]
  simp only [Bool.false_eq_true, if_false]
  split
  · rfl
  · have hkeep : ∀ prod, tier2Keep p prod = none := by
      intro prod
      have hbs : budgetSkip p prod = false := by simp [budgetSkip, hb]
      have hcs : catSkip p prod = false := by simp [catSkip, hstr Slot.category]
      have hsc : calculateMatchScore prod p = 0 := by
        unfold calculateMatchScore
        rw [hstr Slot.category]
        exact restScore_zero prod p hstr hb
      simp [tier2Keep, hbs, hcs, hsc]
    rw [List.filterMap_eq_nil_iff.mpr (fun a _ => hkeep a)]
    simp [stableSort]

/-- C10 witness: the amended theorem at a concrete one-product catalog and the
fresh all-null preference dict. -/
theorem c10_all_null_tier2_empty_witness :
    recommendProducts [neckC] freshSessionPrefs 5 = [] := by
  exact c10_all_null_tier2_empty [neckC] freshSessionPrefs 5
    (fun s => rfl) rfl rfl

/-- C4 counterexample: with budget_max set to the (falsy) number 0, the Tier-1
chain applies no price ceiling at all — `if preferences.get("budget_max"):`
drops the filter — and returns a product priced 10 > 0. -/
theorem c4_zero_budget_counterexample :
    zeroBudgetPrefs.get Slot.budget_max = some (.n 0)
    ∧ (retrieveRelevantProducts c4index zeroBudgetPrefs 5).map Product.price = [10]
    ∧ ¬ ((10 : ℚ) ≤ 0) := by
  refine ⟨rfl, ?_, by norm_num⟩
  have h1 : semanticSearch c4index (filtersFromPrefs zeroBudgetPrefs) 5
      = [{ thriftRing with similarity_score := some (1 - 0) }] := rfl
  have h2 : (1 : ℚ) - 0 = 1 := by norm_num
  have hr : retrieveRelevantProducts c4index zeroBudgetPrefs 5
      = [{ thriftRing with similarity_score := some 1 }] := by
    unfold retrieveRelevantProducts hybridSearch
    rw [h1, h2]
    norm_num [List.filter_cons, List.filter_nil]
  rw [hr]
  rfl

/-- C4 (amended): a numeric budget is a hard price ceiling for the Tier-2
scoring path (any numeric budget, 0 included) and for the Tier-1 semantic path
whenever the budget is nonzero; a budget of exactly 0 is falsy and disables the
Tier-1 ceiling, and Tier 3 is exempt by design. -/
theorem c4_budget_ceiling :
    (∀ (catalog : List Product) (p : SessionPrefs) (top_n : Nat) (b : ℚ)
        (prod : Product),
        p.get .budget_max = some (.n b) → tier3Taken p = false →
        prod ∈ recommendProducts catalog p top_n → prod.price ≤ b)
    ∧ (∀ (index : List IndexEntry) (p : SessionPrefs) (top_k : Nat) (b : ℚ)
        (prod : Product),
        p.get .budget_max = some (.n b) → b ≠ 0 →
        prod ∈ retrieveRelevantProducts index p top_k → prod.price ≤ b) := by
  constructor
  · intro catalog p top_n b prod hb ht3 hmem
    unfold recommendProducts at hmem
    rw [ht3] at hmem
    simp only [Bool.false_eq_true, if_false] at hmem
    split at hmem
    · exact absurd hmem (List.not_mem_nil prod)
    · obtain ⟨pair, hpair, hfst⟩ := List.mem_map.mp hmem
      have h2 := List.mem_of_mem_take hpair
      have h3 := (mem_stableSort _ _ _).mp h2
      obtain ⟨a, _, hkeep⟩ := List.mem_filterMap.mp h3
      unfold tier2Keep at hkeep
      by_cases hbs : budgetSkip p a
      · rw [if_pos hbs] at hkeep
        exact absurd hkeep (by simp)
      · rw [if_neg hbs] at hkeep
        by_cases hcs : catSkip p a
        · rw [if_pos hcs] at hkeep
          exact absurd hkeep (by simp)
        · rw [if_neg hcs] at hkeep
          split at hkeep
          · rw [Option.some_inj] at hkeep
            have ha : pair.1 = a := by rw [← hkeep]
            unfold budgetSkip at hbs
            rw [hb] at hbs
            simp at hbs
            rw [← hfst, ha]
            exact hbs
          · exact absurd hkeep (by simp)
  · intro index p top_k b prod hb hbne hmem
    unfold retrieveRelevantProducts at hmem
    have hmem2 := (List.mem_filter.mp hmem).1
    unfold hybridSearch semanticSearch at hmem2
    obtain ⟨e, he, heq⟩ := List.mem_map.mp hmem2
    have he2 := List.mem_of_mem_take he
    have hw := (List.mem_filter.mp he2).2
    have hple : (buildWhere (filtersFromPrefs p)).priceLe = some b := by
      simp [buildWhere, filtersFromPrefs, hb, hbne]
    unfold matchesWhere at hw
    rw [hple] at hw
    simp only [Bool.and_eq_true] at hw
    have hpb : e.product.price ≤ b := by simpa using hw.2
    rw [← heq]
    simpa using hpb

/-- C4 witness: the scoring tier respects the budget of 400 on a 300-priced
ring, and the semantic tier result likewise stays under the ceiling. -/
theorem c4_budget_ceiling_witness :
    ringB.price ≤ 400
    ∧ ({ ringB with similarity_score := some 1 } : Product).price ≤ 400 := by
  constructor
  · refine c4_budget_ceiling.1 [ringB] prefs400 5 400 ringB rfl rfl ?_
    have hsc : calculateMatchScore ringB prefs400 = 25 := by
      norm_num [calculateMatchScore, restScore, SessionPrefs.getTruthyStr,
        SessionPrefs.get, Option.join, prefs400, ringB]
    have hkeep : tier2Keep prefs400 ringB = some (ringB, 25) := by
      have hb : budgetSkip prefs400 ringB = false := by decide
      have hc : catSkip prefs400 ringB = false := by decide
      rw [tier2Keep, hb, hc, hsc]
      norm_num
    have hrec : recommendProducts [ringB] prefs400 5
        = ((stableSort scoreOrd
              (List.filterMap (tier2Keep prefs400) [ringB])).take 5).map
            Prod.fst := rfl
    rw [hrec, List.filterMap_cons, hkeep, List.filterMap_nil]
    simp [stableSort, insertOrd]
  · refine c4_budget_ceiling.2 c4windex prefs400 5 400 _ rfl (by norm_num) ?_
    have h1 : semanticSearch c4windex (filtersFromPrefs prefs400) 5
        = [{ ringB with similarity_score := some (1 - 0) }] := rfl
    have h2 : (1 : ℚ) - 0 = 1 := by norm_num
    have hr : retrieveRelevantProducts c4windex prefs400 5
        = [{ ringB with similarity_score := some 1 }] := by
      unfold retrieveRelevantProducts hybridSearch
      rw [h1, h2]
      norm_num [List.filter_cons, List.filter_nil]
    rw [hr]
    simp

/-- C2: evaluation of the failing input "show me all rings" on a fresh session.
The heuristic fires, the category is set and every other slot cleared, but the
`user_query_was_generic_show_all` flag is dropped by the merge (it is not one
of the eight slot keys), so the session preference dict never carries it, the
Tier-3 broad branch of `recommend_products` is not taken, and the result is
produced by the Tier-2 scoring path — which happens to return the same
category products in ascending price order via the only-category score of 50
and the price tie-break. -/
theorem c2_show_all_rings_eval :
    (chatTurn freshSession "show me all rings" llmAsk c2catalog []).prefsAfter.showAllFlag
        = false
    ∧ tier3Taken
        (chatTurn freshSession "show me all rings" llmAsk c2catalog []).prefsAfter
        = false
    ∧ Slot.all.map
        (chatTurn freshSession "show me all rings" llmAsk c2catalog []).prefsAfter.slots
        = [some none, some none, some (some (.s "ring")), some none, some none,
           some none, some none, some none]
    ∧ (chatTurn freshSession "show me all rings" llmAsk c2catalog []).products
        = some [ringB, ringA]
    ∧ (chatTurn freshSession "show me all rings" llmAsk c2catalog []).sessionState
        = "POST_RECOMMENDATION_FEEDBACK" := by
  exact ⟨rfl, rfl, rfl, rfl, rfl⟩

/-- C3 failing input: action resolves to `recommend_products`, the catalog has
no ring, so no product survives any tier — and the handler replies with the
catalog-trouble message and writes `error_state` into the session, instead of
the "adjust your search" outcome: the branch at `main.py` 711-728 that produces
it is unreachable (it sits inside the non-empty case of the very list it
checks). -/
theorem c3_empty_result_enters_error_state :
    (chatTurn freshSession "i want a ring" llmRecommendRing c3catalog []).sessionState
        = "error_state"
    ∧ (chatTurn freshSession "i want a ring" llmRecommendRing c3catalog []).reply
        = "I\x27m having trouble accessing our product catalog right now. Please try again in a moment."
    ∧ (chatTurn freshSession "i want a ring" llmRecommendRing c3catalog []).products
        = none := by
  exact ⟨rfl, rfl, rfl⟩

/-- C5 counterexample: a message that merely contains "staff" (matching the heuristic
description of the claim) is not a control token, goes to the LLM path,
and — with the collaborator answering `ask_question` — the turn ends in
`gathering_preferences` with `end_conversation = false`, not in
`staff_handoff_requested`. -/
theorem c5_contains_staff_counterexample :
    strContains (lowerStr (stripStr "is staff available")) "staff" = true
    ∧ (chatTurn freshSession "is staff available" llmAsk [] []).sessionState
        = "gathering_preferences"
    ∧ (chatTurn freshSession "is staff available" llmAsk [] []).sessionState
        ≠ "staff_handoff_requested"
    ∧ (chatTurn freshSession "is staff available" llmAsk [] []).endConversation
        = false := by
  exact ⟨rfl, rfl, by decide, rfl⟩

/-- C5 (amended): the staff heuristic of the turn handler is exact equality
with the control tokens `talk_to_staff` / `request_staff_assistance_dialogue`;
for those, from any state and any stored preferences, the turn ends in
`staff_handoff_requested` with `end_conversation = true`. -/
theorem c5_staff_token_forces_handoff :
    ∀ (sess : Session) (llm : LLMResult) (catalog ragResults : List Product)
      (message : String),
      (lowerStr (stripStr message) = "talk_to_staff"
        ∨ lowerStr (stripStr message) = "request_staff_assistance_dialogue") →
      (chatTurn sess message llm catalog ragResults).sessionState
          = "staff_handoff_requested"
      ∧ (chatTurn sess message llm catalog ragResults).endConversation = true := by
  intro sess llm catalog ragResults message h
  unfold chatTurn
  rcases h with h | h <;> rw [h] <;> exact ⟨rfl, rfl⟩

/-- C5 witness: the token turn on a fresh session. -/
theorem c5_staff_token_forces_handoff_witness :
    (chatTurn freshSession "talk_to_staff" llmAsk [] []).sessionState
        = "staff_handoff_requested"
    ∧ (chatTurn freshSession "talk_to_staff" llmAsk [] []).endConversation
        = true := by
  exact c5_staff_token_forces_handoff freshSession llmAsk [] [] "talk_to_staff"
    (Or.inl (by decide))

/-- C6 counterexample: on a fresh session every slot is null, yet when the LLM
collaborator proposes `recommend_products` the handler invokes the
recommendation engine — there is no local re-check of the
category/occasion/recipient sufficiency rule (the search then finds nothing
and the turn lands in `error_state`). -/
theorem c6_no_sufficiency_recheck_counterexample :
    (Slot.all.all (fun s => !(optTruthy (freshSessionPrefs.get s)))) = true
    ∧ (chatTurn freshSession "i cannot make up my mind" llmRecommendEmpty
        c2catalog []).ranRecommendation = true
    ∧ (chatTurn freshSession "i cannot make up my mind" llmRecommendEmpty
        c2catalog []).sessionState = "error_state" := by
  exact ⟨rfl, rfl, rfl⟩

/-- C6 (amended): the turn handler performs no local sufficiency re-check at
all: whenever the resolved action is `recommend_products` (here proposed by the
external collaborator on a non-heuristic message), the recommendation engine is
invoked regardless of the session state or stored preferences — the sufficiency
rule exists only in `determine_next_action` and `should_recommend_products`,
which the turn handler never calls. -/
theorem c6_recommend_runs_regardless :
    ∀ (sess : Session) (reply st : String) (d : Slot → Option PrefVal)
      (mp : Option String) (catalog ragResults : List Product),
      (chatTurn sess "i cannot make up my mind"
        (.ok ⟨reply, d, st, "recommend_products", mp⟩) catalog
        ragResults).ranRecommendation = true := by
  intro sess reply st d mp catalog ragResults
  rfl

end Era2
